import Mathlib

/-!
Verification of the authentication / remember-me flow of the
VectorCore/Website repository (src/App/Models/Account.js, src/Server.js).

JavaScript strings are embedded as `List Char`.  The external bcrypt
library is modelled by an executable encoding that captures its functional
contract: `hashSync` produces a string carrying the salt and differing from
the plaintext, and `compareSync` recovers the salt from the stored hash,
re-hashes the candidate and compares, so that comparison succeeds exactly
on the original plaintext.
-/

abbrev Str := List Char

/-- Model of `bcrypt.hashSync(p, bcrypt.genSaltSync(15))`.  The produced
hash starts with a version/cost header, then the salt (encoded in unary so
that it is recoverable without ambiguity), a separator, and the digest.
The salt is a parameter: the source draws a fresh random salt per call. -/
def bcryptHashSync (p : Str) (salt : Nat) : Str :=
  '$' :: '2' :: 'b' :: '$' :: '1' :: '5' :: '$' :: (List.replicate salt '0' ++ '$' :: p)

/-- Recover the salt and digest from the part of a hash after the header. -/
def parseSaltLoop : Str → Option (Nat × Str)
  | '0' :: rest => (parseSaltLoop rest).map (fun r => (r.1 + 1, r.2))
  | '$' :: rest => some (0, rest)
  | _ => none

/-- Parse a bcrypt hash: check the version/cost header, then the salt. -/
def parseBcrypt : Str → Option (Nat × Str)
  | '$' :: '2' :: 'b' :: '$' :: '1' :: '5' :: '$' :: rest => parseSaltLoop rest
  | _ => none

/-- Model of `bcrypt.compareSync(p, h)`: extract the salt from the stored
hash, re-hash the candidate with it and compare. -/
def bcryptCompareSync (p h : Str) : Bool :=
  match parseBcrypt h with
  | some r => h == bcryptHashSync p r.1
  | none => false

theorem parseSaltLoop_encode (s : Nat) (p : Str) :
    parseSaltLoop (List.replicate s '0' ++ '$' :: p) = some (s, p) := by
  induction s with
  | zero => simp [parseSaltLoop]
  | succ n ih => simp [List.replicate_succ, parseSaltLoop, ih]

theorem parseBcrypt_hash (p : Str) (s : Nat) :
    parseBcrypt (bcryptHashSync p s) = some (s, p) := by
  simp [bcryptHashSync, parseBcrypt, parseSaltLoop_encode]

theorem bcryptHashSync_inj (p q : Str) (s : Nat)
    (h : bcryptHashSync p s = bcryptHashSync q s) : p = q := by
  simp only [bcryptHashSync, List.cons.injEq, true_and] at h
  have h' := List.append_cancel_left h
  exact (List.cons.injEq _ _ _ _ ▸ h').2

theorem length_bcryptHashSync (p : Str) (s : Nat) :
    (bcryptHashSync p s).length = p.length + s + 8 := by
  simp [bcryptHashSync]
  omega

theorem bcryptHashSync_ne_self (p : Str) (s : Nat) : bcryptHashSync p s ≠ p := by
  intro h
  have := congrArg List.length h
  rw [length_bcryptHashSync] at this
  omega

/-- The functional contract of the bcrypt model: comparing a candidate
against a stored hash succeeds exactly when the candidate is the hashed
plaintext. -/
theorem bcryptCompareSync_hash (q p : Str) (s : Nat) :
    bcryptCompareSync q (bcryptHashSync p s) = (q == p) := by
  unfold bcryptCompareSync
  rw [parseBcrypt_hash]
  show (bcryptHashSync p s == bcryptHashSync q s) = (q == p)
  by_cases h : q = p
  · subst h
    simp
  · have h1 : (bcryptHashSync p s == bcryptHashSync q s) = false := by
      rw [beq_eq_false_iff_ne]
      intro he
      exact h (bcryptHashSync_inj q p s he.symm)
    have h2 : (q == p) = false := by rw [beq_eq_false_iff_ne]; exact h
    rw [h1, h2]

/-!
## The Account model (src/App/Models/Account.js)

Mongoose ObjectId references are embedded as `Nat`.
-/

/-- The Account schema: `Purchase`, `Roles`, `Name`, `Admin`, `Email`,
`Password`, `Remember` (src/App/Models/Account.js lines 11-20). -/
structure Account where
  Purchase : List Nat
  Roles : List Nat
  Name : Str
  Admin : Bool
  Email : Str
  Password : Str
  Remember : Option Str
deriving Repr, DecidableEq

/-- The `pre('save')` hook (lines 26-30): unconditionally replaces the
`Password` field with its bcrypt hash, drawing a fresh salt. -/
def Account.preSave (a : Account) (salt : Nat) : Account :=
  { a with Password := bcryptHashSync a.Password salt }

/-- `ComparePassword` (lines 38-41): `bcrypt.compareSync(Password, this.Password)`. -/
def Account.ComparePassword (a : Account) (p : Str) : Bool :=
  bcryptCompareSync p a.Password

/-- `IsVip` (lines 56-59): `return true;`. -/
def Account.IsVip (_ : Account) : Bool :=
  true

/-- `IsPurchased` (lines 61-64): `this.Purchase.indexOf(ID) !== -1`. -/
def Account.IsPurchased (a : Account) (id : Nat) : Bool :=
  a.Purchase.contains id

/-- `HasRole` (lines 66-74): whether any of the given roles is held. -/
def Account.HasRole (a : Account) (roles : List Nat) : Bool :=
  !(roles.filter (fun r => a.Roles.contains r)).isEmpty

/-!
## The `pre('findOneAndUpdate')` hook (lines 32-36)

The hook reads `this.getUpdate().$set.Password` unconditionally.  In
JavaScript, if the update has no `$set` object the property access throws a
`TypeError`; if `$set` exists but has no `Password`, `bcrypt.hashSync` is
called on `undefined` and throws.  Exceptions are embedded as `Except`.
-/

/-- Errors the hook can raise. -/
inductive JsError where
  /-- Property access on `undefined` (`$set` absent from the update). -/
  | typeError
  /-- `bcrypt.hashSync` called on a non-string (`$set.Password` absent). -/
  | illegalArguments
deriving Repr, DecidableEq

/-- The fields of a `$set` clause that the Account schema can carry; only
`Password` is touched by the hook, the others stand for the rest. -/
structure SetFields where
  Password : Option Str
  Name : Option Str
  Remember : Option Str
deriving Repr, DecidableEq

/-- A mongoose update object: an optional `$set` clause. -/
structure UpdateObj where
  set : Option SetFields
deriving Repr, DecidableEq

/-- The `pre('findOneAndUpdate')` hook: re-hash `$set.Password` in place,
throwing when the access chain hits `undefined`. -/
def Account.preFindOneAndUpdate (u : UpdateObj) (salt : Nat) : Except JsError UpdateObj :=
  match u.set with
  | none => .error .typeError
  | some f =>
    match f.Password with
    | none => .error .illegalArguments
    | some p => .ok ⟨some { f with Password := some (bcryptHashSync p salt) }⟩

/-!
## Token generation and `SetRemember` (lines 43-54)
-/

/-- Modelled from the spec: `App/Helpers/Unique` is not under src/ (only
its caller `SetRemember` is).  The spec says `Unique.String` generates "a
fresh random token of fixed length from an unambiguous character set".
The alphabet below omits the ambiguous characters 0/O/1/l/I. -/
def uniqueAlphabet : Str :=
  "ABCDEFGHJKLMNPQRSTUVWXYZabcdefghijkmnopqrstuvwxyz23456789".toList

/-- Modelled from the spec: `Unique.String(n)` draws `n` characters from
the alphabet.  Randomness is embedded as a deterministic stream indexed by
a seed; each call consumes the seed and the next call uses `seed + 1`. -/
def Unique.String (n : Nat) (seed : Nat) : Str :=
  (List.range n).map (fun i => uniqueAlphabet.getD ((seed + i) % uniqueAlphabet.length) ' ')

/-- An HTTP cookie as set by `Response.cookie(name, value, options)`. -/
structure Cookie where
  name : Str
  value : Str
  maxAge : Nat
  httpOnly : Bool
  signed : Bool
deriving Repr, DecidableEq

/-- The express response, as far as the model needs it: the cookies set. -/
structure Response where
  cookies : List Cookie
deriving Repr, DecidableEq

/-- `Response.cookie(name, value, { maxAge, httpOnly, signed })`. -/
def Response.cookie (r : Response) (n v : Str) (maxAge : Nat) (httpOnly signed : Bool) :
    Response :=
  { cookies := r.cookies ++ [⟨n, v, maxAge, httpOnly, signed⟩] }

/-- One `Logger.Analyze(tag, error)` entry. -/
structure LogEntry where
  tag : Str
deriving Repr, DecidableEq

/-- Everything `SetRemember` affects: the account record in the store, the
response, the generated token, the advanced random seed, and the log. -/
structure SetRememberOut where
  account : Account
  response : Response
  token : Str
  seed : Nat
  log : List LogEntry
deriving Repr, DecidableEq

/-- `SetRemember` (lines 43-54): generate `Unique.String(30)`, set the
`Remember` cookie (30-day `maxAge`, `httpOnly`, `signed`), then issue
`updateOne({ Remember: Token })`.  `dbOk` says whether that write
succeeds; on failure the error is only passed to `Logger.Analyze`. -/
def Account.SetRemember (a : Account) (r : Response) (seed : Nat) (dbOk : Bool) :
    SetRememberOut :=
  let tok := Unique.String 30 seed
  let r' := r.cookie "Remember".toList tok (1000 * 60 * 60 * 24 * 30) true true
  if dbOk then
    { account := { a with Remember := some tok }, response := r', token := tok,
      seed := seed + 1, log := [] }
  else
    { account := a, response := r', token := tok,
      seed := seed + 1, log := [⟨"DBError".toList⟩] }

/-!
## The Remember middleware and the session cookie (src/Server.js)
-/

/-- A signed remember cookie as the cookie-parser hands it to middleware:
its value, and whether its signature verified. -/
structure RememberCookie where
  value : Str
  sigValid : Bool
deriving Repr, DecidableEq

/-- An inbound request: the session's account if one is active, and the
`Remember` cookie if one was sent. -/
structure Request where
  session : Option Account
  cookie : Option RememberCookie
deriving Repr, DecidableEq

/-- Modelled from the spec: `App/Http/Middleware/Remember` is not under
src/ (only its registration in Server.js line 114 is).  The spec: on a
request lacking an active session but carrying a valid signed remember
cookie, look up the account whose stored token equals the cookie value; if
found, establish a session for it; if not found or signature invalid,
treat the request as anonymous.  The result is the authenticated account,
or `none` for anonymous; the function is total — no error path exists. -/
def RememberHandle (db : List Account) (req : Request) : Option Account :=
  match req.session with
  | some a => some a
  | none =>
    match req.cookie with
    | none => none
    | some c =>
      if c.sigValid then db.find? (fun a => a.Remember == some c.value)
      else none

/-- The session configuration (src/Server.js lines 94-102):
`cookie: { expires: new Date(Date.now() + 1000 * 60 * 60 * 6) }`. -/
def sessionCookieExpires (now : Nat) : Nat :=
  now + 1000 * 60 * 60 * 6

/-- A concrete account for witness evaluation: created with the plaintext
password `"Secret1"` from the spec's example, not yet saved. -/
def sampleAccount : Account :=
  { Purchase := [], Roles := [], Name := "Alice".toList, Admin := false,
    Email := "alice@example.org".toList, Password := "Secret1".toList,
    Remember := none }

/-!
## Auxiliary lemmas
-/

theorem length_uniqueString (n seed : Nat) : (Unique.String n seed).length = n := by
  simp [Unique.String]

theorem uniqueAlphabet_getD_inj :
    ∀ i, i < 57 → ∀ j, j < 57 → i ≠ j →
      uniqueAlphabet.getD i ' ' ≠ uniqueAlphabet.getD j ' ' := by decide

theorem uniqueString_head (seed : Nat) :
    (Unique.String 30 seed).head? =
      some (uniqueAlphabet.getD (seed % uniqueAlphabet.length) ' ') := rfl

theorem uniqueString_fresh (seed : Nat) :
    Unique.String 30 seed ≠ Unique.String 30 (seed + 1) := by
  intro h
  have hh := congrArg List.head? h
  rw [uniqueString_head, uniqueString_head] at hh
  have hx := Option.some.inj hh
  have hlen : uniqueAlphabet.length = 57 := by decide
  rw [hlen] at hx
  have hne : seed % 57 ≠ (seed + 1) % 57 := by omega
  exact uniqueAlphabet_getD_inj _ (Nat.mod_lt _ (by omega)) _ (Nat.mod_lt _ (by omega)) hne hx

theorem bcryptCompareSync_self (p : Str) (s : Nat) :
    bcryptCompareSync p (bcryptHashSync p s) = true := by
  rw [bcryptCompareSync_hash]
  exact beq_self_eq_true p

theorem bcryptCompareSync_other (q p : Str) (s : Nat) (h : q ≠ p) :
    bcryptCompareSync q (bcryptHashSync p s) = false := by
  rw [bcryptCompareSync_hash]
  exact beq_eq_false_iff_ne.mpr h

-- Sanity checks on the spec's concrete example
example : (sampleAccount.preSave 3).ComparePassword "Secret1".toList = true := by decide
example : (sampleAccount.preSave 3).ComparePassword "wrong".toList = false := by decide
example : (Unique.String 30 0).length = 30 := by decide
example : Unique.String 30 0 ≠ Unique.String 30 1 := by decide

/-- A concrete `$set` clause carrying a new password, for witnesses. -/
def sampleSetFields : SetFields :=
  { Password := some "NewPass".toList, Name := none, Remember := none }

/-- A store holding one account with a persisted remember token. -/
def sampleDb : List Account :=
  [{ sampleAccount with Remember := some "abcde".toList }]

/-- A session-less request carrying a validly signed remember cookie whose
value matches no stored token. -/
def sampleRequest : Request :=
  { session := none, cookie := some { value := "zzzzz".toList, sigValid := true } }

/-!
## The claims
-/

/-- C1: hashing a password at account creation (the `pre('save')` hook) and
then calling `ComparePassword` on the stored account returns `true` for the
original plaintext and `false` for every other password. -/
theorem C1_comparePassword_correct (a : Account) (salt : Nat) (p' : Str)
    (h : p' ≠ a.Password) :
    (a.preSave salt).ComparePassword a.Password = true ∧
    (a.preSave salt).ComparePassword p' = false :=
  ⟨bcryptCompareSync_self a.Password salt, bcryptCompareSync_other p' a.Password salt h⟩

theorem C1_comparePassword_correct_witness :
    "wrong".toList ≠ sampleAccount.Password ∧
    ((sampleAccount.preSave 3).ComparePassword sampleAccount.Password = true ∧
     (sampleAccount.preSave 3).ComparePassword "wrong".toList = false) :=
  ⟨by decide, C1_comparePassword_correct sampleAccount 3 "wrong".toList (by decide)⟩

/-- C2: calling `SetRemember` twice overwrites the stored `Remember` field:
after the second call the stored value is the second token, and it differs
from the first token, so the first no longer matches. -/
theorem C2_setRemember_overwrites (a : Account) (r₁ r₂ : Response) (seed : Nat) :
    let o₁ := a.SetRemember r₁ seed true
    let o₂ := o₁.account.SetRemember r₂ o₁.seed true
    o₂.account.Remember = some o₂.token ∧ o₂.account.Remember ≠ some o₁.token := by
  intro o₁ o₂
  refine ⟨rfl, ?_⟩
  have h₂ : o₂.account.Remember = some (Unique.String 30 (seed + 1)) := rfl
  have h₁ : o₁.token = Unique.String 30 seed := rfl
  rw [h₂, h₁]
  intro h
  exact uniqueString_fresh seed (Option.some.inj h).symm

/-- C3: every `SetRemember` call generates a token of exactly 30 characters
and sets a cookie named `Remember` holding that token, with
`httpOnly = true`, `signed = true` and `maxAge = 2592000000` ms. -/
theorem C3_setRemember_cookie (a : Account) (r : Response) (seed : Nat) (dbOk : Bool) :
    (a.SetRemember r seed dbOk).token.length = 30 ∧
    (a.SetRemember r seed dbOk).response.cookies =
      r.cookies ++
        [⟨"Remember".toList, (a.SetRemember r seed dbOk).token, 2592000000, true, true⟩] := by
  cases dbOk <;> exact ⟨length_uniqueString 30 seed, rfl⟩

/-- C4: the plaintext is never stored: the save hook replaces `Password` by
the bcrypt hash (which differs from the plaintext), the
`findOneAndUpdate` hook re-hashes a changed password, and comparison goes
through `bcrypt.compareSync` against the hash — it succeeds on the
plaintext even though the stored field does not equal the plaintext. -/
theorem C4_password_never_plaintext (a : Account) (salt : Nat) (f : SetFields) (p : Str)
    (hf : f.Password = some p) :
    (a.preSave salt).Password = bcryptHashSync a.Password salt ∧
    (a.preSave salt).Password ≠ a.Password ∧
    (a.preSave salt).ComparePassword a.Password = true ∧
    Account.preFindOneAndUpdate ⟨some f⟩ salt =
      .ok ⟨some { f with Password := some (bcryptHashSync p salt) }⟩ ∧
    bcryptHashSync p salt ≠ p := by
  refine ⟨rfl, bcryptHashSync_ne_self _ _, bcryptCompareSync_self _ _, ?_,
    bcryptHashSync_ne_self _ _⟩
  simp [Account.preFindOneAndUpdate, hf]

theorem C4_password_never_plaintext_witness :
    sampleSetFields.Password = some "NewPass".toList ∧
    ((sampleAccount.preSave 2).Password = bcryptHashSync sampleAccount.Password 2 ∧
     (sampleAccount.preSave 2).Password ≠ sampleAccount.Password ∧
     (sampleAccount.preSave 2).ComparePassword sampleAccount.Password = true ∧
     Account.preFindOneAndUpdate ⟨some sampleSetFields⟩ 2 =
       .ok ⟨some { sampleSetFields with Password := some (bcryptHashSync "NewPass".toList 2) }⟩ ∧
     bcryptHashSync "NewPass".toList 2 ≠ "NewPass".toList) :=
  ⟨rfl, C4_password_never_plaintext sampleAccount 2 sampleSetFields "NewPass".toList rfl⟩

/-- C5: a request with no active session whose remember cookie matches no
stored token, or whose signature is invalid, yields the anonymous outcome
`none`; the middleware is total, so no error is raised. -/
theorem C5_remember_no_match_anonymous (db : List Account) (req : Request)
    (c : RememberCookie) (hs : req.session = none) (hc : req.cookie = some c)
    (hm : c.sigValid = false ∨ ∀ a ∈ db, a.Remember ≠ some c.value) :
    RememberHandle db req = none := by
  unfold RememberHandle
  rw [hs, hc]
  show (if c.sigValid then db.find? (fun a => a.Remember == some c.value) else none) = none
  rcases hm with h | h
  · rw [h]
    simp
  · cases hsv : c.sigValid with
    | false => simp
    | true =>
      simp only [if_true]
      rw [List.find?_eq_none]
      intro a ha hb
      exact h a ha (eq_of_beq hb)

theorem C5_remember_no_match_anonymous_witness :
    (sampleRequest.session = none ∧
     sampleRequest.cookie = some ⟨"zzzzz".toList, true⟩ ∧
     (∀ a ∈ sampleDb, a.Remember ≠ some "zzzzz".toList)) ∧
    RememberHandle sampleDb sampleRequest = none :=
  ⟨⟨rfl, rfl, by decide⟩,
   C5_remember_no_match_anonymous sampleDb sampleRequest ⟨"zzzzz".toList, true⟩ rfl rfl
     (Or.inr (by decide))⟩

/-- C6: when the `updateOne` persisting the new token fails, `SetRemember`
only logs the error: the cookie is still set on the response, the stored
record is unchanged, the function returns normally (nothing is surfaced to
the user and the response is not blocked). -/
theorem C6_setRemember_persist_failure (a : Account) (r : Response) (seed : Nat) :
    let o := a.SetRemember r seed false
    o.response.cookies = r.cookies ++ [⟨"Remember".toList, o.token, 2592000000, true, true⟩] ∧
    o.log = [⟨"DBError".toList⟩] ∧
    o.account = a :=
  ⟨rfl, rfl, rfl⟩

/-- C7: the session cookie expires exactly 6 hours (21600000 ms) after its
creation time. -/
theorem C7_session_cookie_six_hours (now : Nat) :
    sessionCookieExpires now = now + 21600000 ∧
    sessionCookieExpires now - now = 1000 * 60 * 60 * 6 := by
  unfold sessionCookieExpires
  omega

/-- C8: the save hook hashes unconditionally, so saving an already-saved
account hashes the hash; `ComparePassword` with the original plaintext then
returns `false`. -/
theorem C8_double_save_breaks_password (a : Account) (s₁ s₂ : Nat) :
    ((a.preSave s₁).preSave s₂).Password =
      bcryptHashSync (bcryptHashSync a.Password s₁) s₂ ∧
    ((a.preSave s₁).preSave s₂).ComparePassword a.Password = false := by
  refine ⟨rfl, ?_⟩
  have h : a.Password ≠ bcryptHashSync a.Password s₁ :=
    fun h => bcryptHashSync_ne_self a.Password s₁ h.symm
  exact bcryptCompareSync_other a.Password (bcryptHashSync a.Password s₁) s₂ h

/-- C9: the `findOneAndUpdate` hook dereferences `$set.Password`
unconditionally: it succeeds exactly when the update carries a `$set`
clause with a `Password` entry; a missing `$set` raises the `TypeError` of
an undefined access, and a `$set` without `Password` raises from
`bcrypt.hashSync` — so only updates that set `Password` can pass. -/
theorem C9_findOneAndUpdate_requires_password (u : UpdateObj) (salt : Nat) :
    ((Account.preFindOneAndUpdate u salt).isOk = true ↔
      ∃ f p, u.set = some f ∧ f.Password = some p) ∧
    Account.preFindOneAndUpdate ⟨none⟩ salt = .error .typeError ∧
    (∀ f : SetFields, f.Password = none →
      Account.preFindOneAndUpdate ⟨some f⟩ salt = .error .illegalArguments) := by
  refine ⟨?_, rfl, ?_⟩
  · rcases u with ⟨_ | f⟩
    · simp [Account.preFindOneAndUpdate, Except.isOk, Except.toBool]
    · rcases hf : f.Password with _ | p <;>
        simp [Account.preFindOneAndUpdate, hf, Except.isOk, Except.toBool]
  · intro f hf
    simp [Account.preFindOneAndUpdate, hf]

theorem C9_findOneAndUpdate_requires_password_witness :
    ({ Password := none, Name := some "Bob".toList, Remember := none } : SetFields).Password
      = none ∧
    Account.preFindOneAndUpdate
        ⟨some { Password := none, Name := some "Bob".toList, Remember := none }⟩ 1 =
      .error .illegalArguments :=
  ⟨rfl,
   (C9_findOneAndUpdate_requires_password
      ⟨some { Password := none, Name := some "Bob".toList, Remember := none }⟩ 1).2.2 _ rfl⟩

/-- C10: `IsVip` returns `true` for every account, unconditionally. -/
theorem C10_isVip_always_true (a : Account) : a.IsVip = true :=
  rfl
